import Mathlib

/-!
Verification of the santec python-samples repository: a shallow embedding of
the SME (single-measurement sweep) orchestration workflow, the binary block
reader, and the MPM device facade, together with theorems settling the
specification claims about them.

Conventions of the embedding:
  - Python floats used only in order comparisons are modelled as rationals.
  - Python `int(math.log10(count))` is modelled as `Nat.log 10 count`,
    returned inside `Option`: `none` models the `ValueError` that
    `math.log10` raises at `count = 0`.
  - Byte strings are `List Nat` (one entry per byte); 32-bit samples are
    `Nat` values below `2 ^ 32` (the bit pattern of the float sample).
  - Device responses consumed by a polling loop are a stream `Nat → _`;
    loops are given explicit fuel, `none` meaning the loop is still
    spinning after that many iterations.
  - Code that raises is modelled with `Option`/`Except`; a trace of the
    commands written to an instrument is a `List` of a command datatype.
-/

/-- Models Python `int(math.log10 n)` for a natural argument: `math.log10`
raises `ValueError: math domain error` at `0` (modelled as `none`), and
returns the floor of the base-10 logarithm for positive arguments. -/
def mathLog10 (n : Nat) : Option Nat :=
  if n = 0 then none else some (Nat.log 10 n)

/-- From `samples/mpm_instrument/logg_data_gpib.py` line 30:
`expected_size = count * 4 + (2 + 1 + int(math.log10(count)))`. -/
def expected_size_gpib (count : Nat) : Option Nat :=
  (mathLog10 count).map (fun d => count * 4 + (2 + 1 + d))

/-- From `samples/mpm_instrument/logg_data_lan.py` line 33:
`expected_size = count * 4 + (2 + 1 + int(math.log10(count))) + 1`. -/
def expected_size_lan (count : Nat) : Option Nat :=
  (mathLog10 count).map (fun d => count * 4 + (2 + 1 + d) + 1)

/-- From `samples/sme_for_mpm_215.py` line 122 (inside `get_data`):
`expected_size = count * 4 + (3 + int(math.log10(count)))`. -/
def expected_size_mpm215 (count : Nat) : Option Nat :=
  (mathLog10 count).map (fun d => count * 4 + (3 + d))

/-- The reference value named by claim C1 (and spec section 8):
`count * 4` plus `2` plus the digit count of `count`,
the digit count being `floor(log10 count) + 1`. -/
def ieee_expected_size_ref (count : Nat) : Nat :=
  count * 4 + 2 + (Nat.log 10 count + 1)

/-- Little-endian base-10 digit list of `n` (empty for `0`), computed by
structural recursion on a fuel argument so that the kernel can evaluate it;
proved equal to `Nat.digits 10 n` below. -/
def toDigitsAux : Nat → Nat → List Nat
  | _, 0 => []
  | 0, _ + 1 => []
  | fuel + 1, n + 1 => (n + 1) % 10 :: toDigitsAux fuel ((n + 1) / 10)

/-- Little-endian decimal digits of `n`; executable version of
`Nat.digits 10 n`. -/
def natDigits (n : Nat) : List Nat := toDigitsAux n n

/-- `true` iff the byte is the ASCII code of a decimal digit (`48` – `57`). -/
def is_digit_byte (b : Nat) : Bool :=
  decide (48 ≤ b ∧ b ≤ 57)

/-- Value of a most-significant-first list of ASCII digit bytes
(the decimal length field of an IEEE-488.2 block header). -/
def digitsToNat : List Nat → Nat
  | [] => 0
  | d :: ds => (d - 48) * 10 ^ ds.length + digitsToNat ds

/-- Little-endian byte serialisation of a list of 32-bit samples, four bytes
per sample (the MPM logging buffer payload: one IEEE-754 single per point,
represented here by its bit pattern). -/
def wordsToBytes : List Nat → List Nat
  | [] => []
  | w :: ws =>
      w % 256 :: w / 256 % 256 :: w / 65536 % 256 :: w / 16777216 :: wordsToBytes ws

/-- Regroup a little-endian byte list into 32-bit samples, four bytes per
sample; a trailing group of fewer than four bytes yields no sample. -/
def chunk4 : List Nat → List Nat
  | b0 :: b1 :: b2 :: b3 :: rest =>
      (b0 + 256 * b1 + 65536 * b2 + 16777216 * b3) :: chunk4 rest
  | _ => []

/-- Modelled from the spec: `decode_ieee_block` (spec sections 3 and 4.1).
The implementation the samples call is `pyvisa.util.from_ieee_block`, which
is not part of this repository's sources, so the decoder is taken from the
spec's words: read the `#` prefix, one digit `n`, the `n`-digit decimal
length `L`, then exactly `L` payload bytes — no more, no less — and
reinterpret the payload as fixed-width 4-byte little-endian values; any
malformed header or a declared length that does not match the bytes
actually available is a `FramingError`. -/
def from_ieee_block (block : List Nat) : Except String (List Nat) :=
  match block with
  | 35 :: d :: rest =>
      if 49 ≤ d ∧ d ≤ 57 then
        if (rest.take (d - 48)).length = d - 48 ∧ (rest.take (d - 48)).all is_digit_byte then
          if (rest.drop (d - 48)).length = digitsToNat (rest.take (d - 48)) ∧
              digitsToNat (rest.take (d - 48)) % 4 = 0 then
            Except.ok (chunk4 (rest.drop (d - 48)))
          else
            Except.error "FramingError: declared length does not match the bytes available"
        else
          Except.error "FramingError: malformed length field"
      else
        Except.error "FramingError: malformed header digit count"
  | _ =>
      Except.error "FramingError: missing # prefix"

/-- Modelled from the spec: `encode_ieee_block` (spec section 8), the inverse
framing used to state the round-trip property; it is not in the repository's
sources (pyvisa's `util.to_ieee_block`). The payload is the 4-byte
little-endian serialisation of the samples; the header is `#`, the digit
count of the payload length, then the payload length in decimal. -/
def encode_ieee_block (samples : List Nat) : List Nat :=
  35 :: ((natDigits (wordsToBytes samples).length).length + 48) ::
    ((natDigits (wordsToBytes samples).length).reverse.map (· + 48) ++ wordsToBytes samples)

/-- From `samples/sme_for_mpm_215.py` lines 116–132, `get_data`: query the
count (`LOGN?`), compute `expected_size`, read exactly `expected_size` bytes
of the `LOGG?` response and decode them as an IEEE-488.2 block. `none`
models the `ValueError` raised by `math.log10` when the count is `0`;
`deviceBytes` is the stream of bytes the device sends, of which
`read_bytes` consumes exactly `expected_size`. -/
def get_data (count : Nat) (deviceBytes : List Nat) : Option (Except String (List Nat)) :=
  (expected_size_mpm215 count).map (fun sz => from_ieee_block (deviceBytes.take sz))

/-- The completion-wait loop of the orchestrator (`SME.perform_scan` lines
164–174 of `samples/sme_operation/sme_operation.py`, and
`perform_sweep` lines 103–105 of `samples/simple_sme.py`):
`while int(query("STAT?").split(',')[0]) == 0: sleep`. `stat i` is the
status field of the `i`-th `STAT?` response; the result is the first
non-zero status, `none` when every one of the first `fuel` responses was
`0` (the loop is still spinning). -/
def stat_wait_loop : Nat → (Nat → Int) → Nat → Option Int
  | 0, _, _ => none
  | fuel + 1, stat, i => if stat i = 0 then stat_wait_loop fuel stat (i + 1) else some (stat i)

/-- The measurement-mode force-set loop of `SME.configure_mpm` (lines
121–124 of `samples/sme_operation/sme_operation.py`):
`while True: if mode in query('WMOD?'): break; write('WMOD mode')`.
`resp i` tells whether the `i`-th `WMOD?` response contains the requested
mode; the result is the index of the accepted poll, `none` when the first
`fuel` responses all lacked it. -/
def wmod_force_set_loop : Nat → (Nat → Bool) → Nat → Option Nat
  | 0, _, _ => none
  | fuel + 1, resp, i => if resp i then some i else wmod_force_set_loop fuel resp (i + 1)

/-- Outcome of the sweep-then-fetch sequence of `samples/simple_sme.py`
`main`: the final status the wait loop observed, and whether the
data-fetch operation was invoked afterwards. -/
structure SmeOutcome where
  finalStatus : Int
  fetched : Bool
deriving DecidableEq

/-- The tail of `samples/simple_sme.py` `main` (lines 157–158) together with
the completion wait inside `perform_sweep`: wait until the meter's status
field is non-zero, then call `fetch_data()` unconditionally. `none` models
a wait loop still spinning after `fuel` polls. -/
def sme_main (fuel : Nat) (stat : Nat → Int) : Option SmeOutcome :=
  match stat_wait_loop fuel stat 0 with
  | none => none
  | some s => some ⟨s, true⟩

/-- Commands written to the laser by `SME.configure_tsl`
(`samples/sme_operation/sme_operation.py` lines 31–72), in program order. -/
inductive TslCmd where
  | cls | rst | commCode | gpibDel
  | powStatOn
  | powUnit | wavUnit | powAttAut | cohctrl | powShut
  | pow (v : ℚ) | sweStar (v : ℚ) | sweStop (v : ℚ) | sweSpe (v : ℚ) | trigStep (v : ℚ)
deriving DecidableEq

/-- `SME.configure_tsl` as a transport trace: `powStat` is the laser's
`POW:STAT?` response, `opc` the stream of `*OPC?` responses polled while
waiting for the output to switch on (with explicit fuel), and the result
is the list of commands written, `none` when the `*OPC?` wait is still
spinning. The function performs no validation of the sweep parameters. -/
def configure_tsl (powStat : Int) (opc : Nat → Int) (fuel : Nat)
    (start_wavelength stop_wavelength step_wavelength output_power scan_speed : ℚ) :
    Option (List TslCmd) :=
  let pre : List TslCmd := [.cls, .rst, .commCode, .gpibDel]
  let mid : Option (List TslCmd) :=
    if powStat = 0 then
      match stat_wait_loop fuel (fun i => if opc i = 0 then 0 else 1) 0 with
      | none => none
      | some _ => some [.powStatOn]
    else some []
  mid.map (fun m =>
    pre ++ m ++
      [.powUnit, .wavUnit, .powAttAut, .cohctrl, .powShut,
       .pow output_power, .sweStar start_wavelength, .sweStop stop_wavelength,
       .sweSpe scan_speed, .trigStep step_wavelength])

/-- Commands a validating MPM facade setter writes
(`samples/mpm_instrument/mpm_instrument.py`). -/
inductive MpmCmd where
  | wav (v : ℚ)
  | wset (start stop step : ℚ)
  | spe (v : ℚ)
  | logn (v : Int)
deriving DecidableEq

/-- `MPM.wavelength` setter (`mpm_instrument.py` lines 234–244): reject a
wavelength outside 1250–1630 nm with `ValueError` before writing, else
write exactly `WAV value`. -/
def wavelength_set (value : ℚ) : Except String (List MpmCmd) :=
  if ¬(1250 ≤ value ∧ value ≤ 1630) then
    Except.error "Wavelength must be between 1250.000 and 1630.000 nm."
  else
    Except.ok [.wav value]

/-- `MPM.sweep_wavelength_and_step` setter (`mpm_instrument.py` lines
277–298): range-check start, stop and step and require `start < stop`
before writing exactly `WSET start,stop,step`. -/
def sweep_wavelength_and_step (start stop step : ℚ) : Except String (List MpmCmd) :=
  if ¬(1250 ≤ start ∧ start ≤ 1630) then
    Except.error "Start wavelength must be between 1250 and 1630 nm."
  else if ¬(1250 ≤ stop ∧ stop ≤ 1630) then
    Except.error "Stop wavelength must be between 1250 and 1630 nm."
  else if ¬(1 / 1000 ≤ step ∧ step ≤ 10) then
    Except.error "Step wavelength must be between 0.001 and 10 nm."
  else if stop ≤ start then
    Except.error "Stop wavelength must be greater than start wavelength."
  else
    Except.ok [.wset start stop step]

/-- `MPM.sweep_speed` setter (`mpm_instrument.py` lines 305–318). -/
def sweep_speed_set (speed : ℚ) : Except String (List MpmCmd) :=
  if ¬(1 / 1000 ≤ speed ∧ speed ≤ 200) then
    Except.error "Sweep speed must be between 0.001 and 200 nm/sec."
  else
    Except.ok [.spe speed]

/-- `MPM.logging_data_point` setter (`mpm_instrument.py` lines 551–569). -/
def logging_data_point_set (value : Int) : Except String (List MpmCmd) :=
  if ¬(1 ≤ value ∧ value ≤ 1000000) then
    Except.error "Measurement data point must be between 1 and 1,000,000."
  else
    Except.ok [.logn value]

/-- `fetch_data` of `samples/simple_sme.py` lines 110–128: the whole body is
wrapped in `try/except Exception`; the argument is the outcome of the
`query_binary_values` transport call (`Except.error` = the call raised),
and on any exception the function prints and returns the empty list. -/
def fetch_data (queryResult : Except String (List Nat)) : List Nat :=
  match queryResult with
  | .ok data => data
  | .error _ => []

/-- `MPM.get_logging_data` of `mpm_instrument.py` lines 571–590: try
`query_binary_values`; on any exception print and fall back to a raw
`write` + `read_raw`; on a second exception print and fall through,
returning `None`. -/
def get_logging_data (queryResult rawResult : Except String (List Nat)) :
    Option (List Nat) :=
  match queryResult with
  | .ok data => some data
  | .error _ =>
      match rawResult with
      | .ok raw => some raw
      | .error _ => none

/-- The `ErrorCode` enum of `mpm_instrument.py` lines 593–616. -/
inductive ErrorCode where
  | NO_ERROR
  | INVALID_CHARACTER
  | INVALID_SEPARATOR
  | DATA_TYPE_ERROR
  | PARAMETER_NOT_ALLOWED
  | MISSING_PARAMETER
  | COMMAND_HEADER_ERROR
  | UNDEFINED_HEADER
  | SETTING_CONFLICT
  | DATA_OUT_OF_RANGE
  | PROGRAM_RUNNING
  | DEVICE_SPECIFIC_ERROR
  | NOT_MEASUREMENT_MODULE
  | QUEUE_OVERFLOW
  | QUEUE_EMPTY
  | UPP_COMM_HEADER_ERROR
  | UPP_COMM_RSP_NO
  | UPP_COMM_MODULE_MISMATCHED
  | TCPIP_COMM_ERROR
  | GPIB_TX_NOT_COMPLETED
  | GPIB_TX_TIMER_EXPIRED
  | MC_TRIG_ERROR
  | SEM_NOT_EXIST
deriving DecidableEq

/-- The numeric value of each `ErrorCode` member (`mpm_instrument.py`
lines 594–616). -/
def errorCodeValue : ErrorCode → Int
  | .NO_ERROR => 0
  | .INVALID_CHARACTER => -101
  | .INVALID_SEPARATOR => -103
  | .DATA_TYPE_ERROR => -104
  | .PARAMETER_NOT_ALLOWED => -108
  | .MISSING_PARAMETER => -109
  | .COMMAND_HEADER_ERROR => -110
  | .UNDEFINED_HEADER => -113
  | .SETTING_CONFLICT => -221
  | .DATA_OUT_OF_RANGE => -222
  | .PROGRAM_RUNNING => -284
  | .DEVICE_SPECIFIC_ERROR => -300
  | .NOT_MEASUREMENT_MODULE => -301
  | .QUEUE_OVERFLOW => -350
  | .QUEUE_EMPTY => -351
  | .UPP_COMM_HEADER_ERROR => 101
  | .UPP_COMM_RSP_NO => 103
  | .UPP_COMM_MODULE_MISMATCHED => 104
  | .TCPIP_COMM_ERROR => 110
  | .GPIB_TX_NOT_COMPLETED => 116
  | .GPIB_TX_TIMER_EXPIRED => 117
  | .MC_TRIG_ERROR => 120
  | .SEM_NOT_EXIST => 210

/-- All enum members, in declaration order. -/
def errorCodeMembers : List ErrorCode :=
  [.NO_ERROR, .INVALID_CHARACTER, .INVALID_SEPARATOR, .DATA_TYPE_ERROR,
   .PARAMETER_NOT_ALLOWED, .MISSING_PARAMETER, .COMMAND_HEADER_ERROR,
   .UNDEFINED_HEADER, .SETTING_CONFLICT, .DATA_OUT_OF_RANGE, .PROGRAM_RUNNING,
   .DEVICE_SPECIFIC_ERROR, .NOT_MEASUREMENT_MODULE, .QUEUE_OVERFLOW,
   .QUEUE_EMPTY, .UPP_COMM_HEADER_ERROR, .UPP_COMM_RSP_NO,
   .UPP_COMM_MODULE_MISMATCHED, .TCPIP_COMM_ERROR, .GPIB_TX_NOT_COMPLETED,
   .GPIB_TX_TIMER_EXPIRED, .MC_TRIG_ERROR, .SEM_NOT_EXIST]

/-- Python's `ErrorCode(value)` enum constructor, used by `MPM.error`
(`mpm_instrument.py` line 77): look the integer up in the member table;
`none` models the `ValueError` the `Enum` call raises when the integer is
not the value of any member. -/
def errorCodeOfInt (value : Int) : Option ErrorCode :=
  errorCodeMembers.find? (fun e => errorCodeValue e = value)

/-- `ErrorCode.get_error_description` (`mpm_instrument.py` lines 618–645):
a dictionary keyed by the enum members, read with
`.get(error_code, "Unknown error")`. The argument is the lookup key:
`some e` for a member, `none` for any key outside the member set (for
which the `.get` default applies). -/
def get_error_description : Option ErrorCode → String
  | some .NO_ERROR => "No error"
  | some .INVALID_CHARACTER => "Invalid character. This occurs when unacceptable characters are received for Command or Parameter. Unacceptable characters: '%', '&', '$', '#', '~'."
  | some .INVALID_SEPARATOR => "Invalid separator. This occurs when an unacceptable character is received as a separator between the Command and the Parameter. Unacceptable characters: '`', ';'."
  | some .DATA_TYPE_ERROR => "Data type error. This occurs when the Parameter is not an acceptable data type."
  | some .PARAMETER_NOT_ALLOWED => "Parameter not allowed. This occurs when the number of parameters in the corresponding command is more or less than expected."
  | some .MISSING_PARAMETER => "Missing parameter. This occurs when the number of characters in the Parameter is longer than 18."
  | some .COMMAND_HEADER_ERROR => "Command header error. This occurs when the number of characters in the Command is longer than 13."
  | some .UNDEFINED_HEADER => "Undefined Header. This occurs when an unsupported command is received."
  | some .SETTING_CONFLICT => "Setting conflict. This occurs when one of the following setup commands (other than STOP or STAT?) was received before measurement using 'MEAS' command is completed: AVG, LEV, LOGN, AUTO, WAVE, WMOD, WSET, SPE, LOOP, UNIT."
  | some .DATA_OUT_OF_RANGE => "Data out of range. This occurs when the parameter is outside the acceptable value."
  | some .PROGRAM_RUNNING => "Program currently running. This occurs when the mainframe delivers new commands to the module before the process of delivering commands to the module and receiving responses is completed."
  | some .DEVICE_SPECIFIC_ERROR => "Device specific error. This occurs when the GPIB Address number that you are trying to set exceeds 32."
  | some .NOT_MEASUREMENT_MODULE => "Is not Measurement Module. This occurs when user attempts to deliver a command to a module (slot) that is not installed."
  | some .QUEUE_OVERFLOW => "Queue overflow. This occurs when the Queue space used for communication between internal Tasks is full, and there is no space to store information."
  | some .QUEUE_EMPTY => "Queue empty. This occurs when there is no message in the Queue space used for communication between internal Tasks."
  | some .UPP_COMM_HEADER_ERROR => "uPP Comm. Header Error. This occurs when the Headers of the Packet used to send and receive data between the mainframe and the module are different."
  | some .UPP_COMM_RSP_NO => "uPP Comm. Rsp No. This occurs when the mainframe sends data information to the module but does not receive a response."
  | some .UPP_COMM_MODULE_MISMATCHED => "uPP Comm. Module Mismatched. This occurs when the mainframe receives information from a different module than the one that sent the data."
  | some .TCPIP_COMM_ERROR => "TCPIP Comm. Error. This occurs when all data to be transferred is not sent in TCP/IP communication."
  | some .GPIB_TX_NOT_COMPLETED => "GPIB Tx not completed. This occurs when no event is delivered to the internal GPIB Task used for GPIB communication."
  | some .GPIB_TX_TIMER_EXPIRED => "GPIB Tx Timer Expired. This occurs when all data to be transferred is not sent in GPIB communication."
  | some .MC_TRIG_ERROR => "MC Trig. Error. This occurs when the mainframe does not receive a measurement completion signal (H/W signal) from the module after the measurement command was delivered to the module."
  | some .SEM_NOT_EXIST => "not exist SEM. This occurs when an unregistered message is delivered between internal tasks."
  | none => "Unknown error"

theorem toDigitsAux_eq_digits : ∀ (fuel n : Nat), n ≤ fuel →
    toDigitsAux fuel n = Nat.digits 10 n := by
  intro fuel
  induction fuel with
  | zero =>
    intro n hn
    interval_cases n
    simp [toDigitsAux]
  | succ f ih =>
    intro n hn
    match n with
    | 0 => simp [toDigitsAux]
    | m + 1 =>
      rw [toDigitsAux, Nat.digits_def' (by norm_num) (Nat.succ_pos m)]
      have hdiv : (m + 1) / 10 ≤ f := by
        have h1 : (m + 1) / 10 < m + 1 := Nat.div_lt_self (Nat.succ_pos m) (by norm_num)
        omega
      rw [ih _ hdiv]

theorem natDigits_eq_digits (n : Nat) : natDigits n = Nat.digits 10 n :=
  toDigitsAux_eq_digits n n (Nat.le_refl n)

theorem natDigits_length (n : Nat) (hn : n ≠ 0) :
    (natDigits n).length = Nat.log 10 n + 1 := by
  rw [natDigits_eq_digits, Nat.digits_len 10 n (by norm_num) hn]

/-- C1: the claim as stated is false: the LAN variant of `expected_size`
does not equal the reference value `count * 4 + 2 + (⌊log10 count⌋ + 1)`;
already at `count = 1` the LAN variant computes `8` while the reference is
`7`. -/
theorem C1_lan_variant_differs :
    expected_size_lan 1 = some 8 ∧ ieee_expected_size_ref 1 = 7 := by
  constructor <;>
    simp [expected_size_lan, ieee_expected_size_ref, mathLog10, Nat.log_one_right]

/-- C1 (amended): for every `count ≥ 1`, the GPIB and MPM-215 variants of
`expected_size` both equal the reference value
`count * 4 + 2 + (⌊log10 count⌋ + 1)`, while the LAN variant equals the
reference value plus one. -/
theorem C1_expected_size_variants (c : Nat) (h : 1 ≤ c) :
    expected_size_gpib c = some (ieee_expected_size_ref c) ∧
    expected_size_mpm215 c = some (ieee_expected_size_ref c) ∧
    expected_size_lan c = some (ieee_expected_size_ref c + 1) := by
  have hc : ¬(c = 0) := by omega
  refine ⟨?_, ?_, ?_⟩ <;>
    · simp only [expected_size_gpib, expected_size_mpm215, expected_size_lan,
        ieee_expected_size_ref, mathLog10, if_neg hc, Option.map_some',
        Option.some.injEq]
      omega

theorem C1_expected_size_variants_witness :
    1 ≤ 100 ∧
      (expected_size_gpib 100 = some (ieee_expected_size_ref 100) ∧
       expected_size_mpm215 100 = some (ieee_expected_size_ref 100) ∧
       expected_size_lan 100 = some (ieee_expected_size_ref 100 + 1)) :=
  ⟨by norm_num, C1_expected_size_variants 100 (by norm_num)⟩

/-- C7: the claim as stated is false: the `expected_size` computations do
not special-case `count = 0` — they pass `0` straight to `math.log10`,
which raises (`none` in the embedding), so the computation is undefined at
`0` rather than defined. -/
theorem C7_count_zero_raises :
    expected_size_mpm215 0 = none ∧ expected_size_gpib 0 = none := by
  constructor <;> rfl

/-- C7 (amended): the computation applies `log10` unconditionally: at
`count = 0` it raises a math domain error (no special case exists), and
for `count ≥ 1` it is defined with the digit count of `count`
(`⌊log10 count⌋ + 1 =` the length of `count`'s decimal digit list) as the
header allowance. -/
theorem C7_log_unguarded (c : Nat) (h : 1 ≤ c) :
    expected_size_gpib 0 = none ∧ expected_size_mpm215 0 = none ∧
    expected_size_gpib c = some (c * 4 + 2 + (natDigits c).length) ∧
    expected_size_mpm215 c = some (c * 4 + 2 + (natDigits c).length) := by
  have hc : ¬(c = 0) := by omega
  have hlen : (natDigits c).length = Nat.log 10 c + 1 := natDigits_length c hc
  refine ⟨rfl, rfl, ?_, ?_⟩ <;>
    · simp only [expected_size_gpib, expected_size_mpm215, mathLog10, if_neg hc,
        Option.map_some', Option.some.injEq, hlen]
      omega

theorem C7_log_unguarded_witness :
    1 ≤ 7 ∧
      (expected_size_gpib 0 = none ∧ expected_size_mpm215 0 = none ∧
       expected_size_gpib 7 = some (7 * 4 + 2 + (natDigits 7).length) ∧
       expected_size_mpm215 7 = some (7 * 4 + 2 + (natDigits 7).length)) :=
  ⟨by norm_num, C7_log_unguarded 7 (by norm_num)⟩

theorem stat_wait_loop_isSome_iff : ∀ (fuel : Nat) (stat : Nat → Int) (i : Nat),
    (stat_wait_loop fuel stat i).isSome ↔ ∃ n, n < fuel ∧ stat (i + n) ≠ 0 := by
  intro fuel
  induction fuel with
  | zero => intro stat i; simp [stat_wait_loop]
  | succ f ih =>
    intro stat i
    rw [stat_wait_loop]
    by_cases h : stat i = 0
    · rw [if_pos h, ih]
      constructor
      · rintro ⟨n, hn, hs⟩
        refine ⟨n + 1, by omega, ?_⟩
        have he : i + (n + 1) = i + 1 + n := by omega
        rw [he]; exact hs
      · rintro ⟨n, hn, hs⟩
        match n with
        | 0 => exact absurd h (by simpa using hs)
        | m + 1 =>
          refine ⟨m, by omega, ?_⟩
          have he : i + 1 + m = i + (m + 1) := by omega
          rw [he]; exact hs
    · rw [if_neg h]
      simpa using ⟨0, by omega, by simpa using h⟩

theorem stat_wait_loop_some : ∀ (fuel i : Nat) (stat : Nat → Int) (s : Int),
    stat_wait_loop fuel stat i = some s →
      s ≠ 0 ∧ ∃ n, n < fuel ∧ stat (i + n) = s ∧ ∀ m, m < n → stat (i + m) = 0 := by
  intro fuel
  induction fuel with
  | zero => intro i stat s h; cases h
  | succ f ih =>
    intro i stat s h
    rw [stat_wait_loop] at h
    by_cases hz : stat i = 0
    · rw [if_pos hz] at h
      obtain ⟨hs, n, hn, hsn, hall⟩ := ih (i + 1) stat s h
      refine ⟨hs, n + 1, by omega, ?_, ?_⟩
      · have he : i + (n + 1) = i + 1 + n := by omega
        rw [he]; exact hsn
      · intro m hm
        match m with
        | 0 => simpa using hz
        | k + 1 =>
          have he : i + (k + 1) = i + 1 + k := by omega
          rw [he]; exact hall k (by omega)
    · rw [if_neg hz] at h
      obtain rfl : stat i = s := by simpa using h
      exact ⟨hz, 0, by omega, by simp, by omega⟩

theorem wmod_force_set_loop_isSome_iff : ∀ (fuel : Nat) (resp : Nat → Bool) (i : Nat),
    (wmod_force_set_loop fuel resp i).isSome ↔ ∃ n, n < fuel ∧ resp (i + n) = true := by
  intro fuel
  induction fuel with
  | zero => intro resp i; simp [wmod_force_set_loop]
  | succ f ih =>
    intro resp i
    rw [wmod_force_set_loop]
    by_cases h : resp i = true
    · rw [if_pos h]
      simpa using ⟨0, by omega, by simpa using h⟩
    · rw [if_neg h, ih]
      constructor
      · rintro ⟨n, hn, hs⟩
        refine ⟨n + 1, by omega, ?_⟩
        have he : i + (n + 1) = i + 1 + n := by omega
        rw [he]; exact hs
      · rintro ⟨n, hn, hs⟩
        match n with
        | 0 => exact absurd (by simpa using hs) h
        | m + 1 =>
          refine ⟨m, by omega, ?_⟩
          have he : i + 1 + m = i + (m + 1) := by omega
          rw [he]; exact hs

/-- C4: the claim as stated is false: the polling loops have no iteration
bound at all. For the `WMOD` force-set loop of `SME.configure_mpm` there is
no bound `B` of iterations that suffices for every response sequence — a
meter that never reports the requested mode keeps the loop spinning past
any bound (and the code defines no `DeviceNotReadyError` or
`SweepStartTimeoutError`). -/
theorem C4_no_iteration_bound :
    ¬ ∃ B : Nat, ∀ resp : Nat → Bool, (wmod_force_set_loop B resp 0).isSome := by
  rintro ⟨B, h⟩
  have hb := h (fun _ => false)
  rw [wmod_force_set_loop_isSome_iff] at hb
  obtain ⟨n, _, hn⟩ := hb
  simp at hn

/-- C4 (amended): the polling loops are unbounded busy-waits: within any
fuel `B`, the `WMOD` force-set loop of `SME.configure_mpm` has exited iff
some earlier response contained the requested mode, and the `STAT?`
completion wait of `SME.perform_scan` has exited iff some earlier status
was non-zero; a device that never reaches the expected state makes the
loop spin forever — no retry bound and no timeout error exist in the
code. -/
theorem C4_poll_loops_unbounded (fuel : Nat) (resp : Nat → Bool) (stat : Nat → Int) :
    ((wmod_force_set_loop fuel resp 0).isSome ↔ ∃ n, n < fuel ∧ resp n = true) ∧
    ((stat_wait_loop fuel stat 0).isSome ↔ ∃ n, n < fuel ∧ stat n ≠ 0) := by
  constructor
  · rw [wmod_force_set_loop_isSome_iff]; simp
  · rw [stat_wait_loop_isSome_iff]; simp

/-- C2: the claim as stated is false: a "forcibly stopped" status (`-1`)
does not lead to a `Failed` state — the wait loop of the orchestrator
exits on any non-zero status and the fetch is invoked unconditionally
afterwards, also when the final status is `-1`. -/
theorem C2_forced_stop_still_fetches :
    ¬ (∀ (fuel : Nat) (stat : Nat → Int) (o : SmeOutcome),
        sme_main fuel stat = some o → o.finalStatus = -1 → o.fetched = false) := by
  intro h
  have hc := h 1 (fun _ => -1) ⟨-1, true⟩ rfl rfl
  simp at hc

/-- C2 (amended): the completion wait polls while the status is `0` and
exits on the first non-zero status — `1` (completed) and `-1` (forcibly
stopped) are treated alike — after which the data fetch is always invoked;
no `Failed` state and no `MeasurementAbortedError` exist in the code. -/
theorem C2_wait_then_fetch (fuel : Nat) (stat : Nat → Int) (o : SmeOutcome)
    (h : sme_main fuel stat = some o) :
    o.fetched = true ∧ o.finalStatus ≠ 0 ∧
      ∃ n, n < fuel ∧ stat n = o.finalStatus ∧ ∀ m, m < n → stat m = 0 := by
  unfold sme_main at h
  cases hw : stat_wait_loop fuel stat 0 with
  | none => rw [hw] at h; cases h
  | some s =>
    rw [hw] at h
    have ho : o = ⟨s, true⟩ := by cases h; rfl
    obtain ⟨hs, n, hn, hsn, hall⟩ := stat_wait_loop_some fuel 0 stat s hw
    subst ho
    refine ⟨rfl, hs, n, hn, by simpa using hsn, fun m hm => by simpa using hall m hm⟩

theorem C2_wait_then_fetch_witness :
    (SmeOutcome.mk 1 true).fetched = true ∧ (SmeOutcome.mk 1 true).finalStatus ≠ 0 ∧
      ∃ n, n < 1 ∧ (fun _ : Nat => (1 : Int)) n = (SmeOutcome.mk 1 true).finalStatus ∧
        ∀ m, m < n → (fun _ : Nat => (1 : Int)) m = 0 :=
  C2_wait_then_fetch 1 (fun _ => 1) ⟨1, true⟩ rfl

/-- C3: the claim as stated is false: invoking the orchestrator's
configuration with `start_wavelength = 1300 ≥ 1250 = stop_wavelength`
raises nothing and writes 14 commands to the laser, not zero — the
orchestrator performs no validation before transmitting (and no
`ConfigurationError` exists in the code). -/
theorem C3_no_local_validation :
    (1250 : ℚ) ≤ 1300 ∧
      (configure_tsl 1 (fun _ => 1) 0 1300 1250 1 0 10).map List.length = some 14 := by
  constructor
  · norm_num
  · rfl

/-- C3 (amended): the orchestrator never validates the sweep window:
whenever `configure_tsl` completes it has written its full command
sequence — including the start and stop wavelengths — even when
`start ≥ stop`; the only `start ≥ stop` rejection in the repository is the
MPM facade setter `sweep_wavelength_and_step`, which raises `ValueError`
before writing (and which the orchestrator does not call). -/
theorem C3_configure_writes_regardless (powStat : Int) (opc : Nat → Int) (fuel : Nat)
    (start_wavelength stop_wavelength step_wavelength output_power scan_speed : ℚ)
    (tr : List TslCmd)
    (hrun : configure_tsl powStat opc fuel start_wavelength stop_wavelength
      step_wavelength output_power scan_speed = some tr)
    (horder : stop_wavelength ≤ start_wavelength) :
    TslCmd.sweStar start_wavelength ∈ tr ∧ TslCmd.sweStop stop_wavelength ∈ tr ∧
      tr ≠ [] ∧
      ∃ m, sweep_wavelength_and_step start_wavelength stop_wavelength step_wavelength =
        Except.error m := by
  simp only [configure_tsl] at hrun
  rw [Option.map_eq_some'] at hrun
  obtain ⟨mid, _, htr⟩ := hrun
  subst htr
  refine ⟨by simp, by simp, by simp, ?_⟩
  unfold sweep_wavelength_and_step
  split_ifs with h1 h2 h3
  · exact ⟨_, rfl⟩
  · exact ⟨_, rfl⟩
  · exact ⟨_, rfl⟩
  · exact ⟨_, rfl⟩

theorem C3_configure_writes_regardless_witness :
    TslCmd.sweStar 1300 ∈
        ([.cls, .rst, .commCode, .gpibDel, .powUnit, .wavUnit, .powAttAut, .cohctrl,
          .powShut, .pow 0, .sweStar 1300, .sweStop 1250, .sweSpe 10, .trigStep 1] :
          List TslCmd) ∧
      TslCmd.sweStop 1250 ∈
        ([.cls, .rst, .commCode, .gpibDel, .powUnit, .wavUnit, .powAttAut, .cohctrl,
          .powShut, .pow 0, .sweStar 1300, .sweStop 1250, .sweSpe 10, .trigStep 1] :
          List TslCmd) ∧
      ([.cls, .rst, .commCode, .gpibDel, .powUnit, .wavUnit, .powAttAut, .cohctrl,
        .powShut, .pow 0, .sweStar 1300, .sweStop 1250, .sweSpe 10, .trigStep 1] :
        List TslCmd) ≠ [] ∧
      ∃ m, sweep_wavelength_and_step 1300 1250 1 = Except.error m :=
  C3_configure_writes_regardless 1 (fun _ => 1) 0 1300 1250 1 0 10 _ rfl (by norm_num)

/-- C10: each validating MPM facade setter checks its documented range
before its single `write`: an out-of-range argument raises `ValueError`
with nothing written, an in-range argument writes exactly one command. -/
theorem C10_setters_atomic (value speed start stop step : ℚ) (n : Int) :
    (wavelength_set value = Except.ok [MpmCmd.wav value] ↔
      (1250 ≤ value ∧ value ≤ 1630)) ∧
    ((∃ m, wavelength_set value = Except.error m) ↔
      ¬(1250 ≤ value ∧ value ≤ 1630)) ∧
    (sweep_speed_set speed = Except.ok [MpmCmd.spe speed] ↔
      (1 / 1000 ≤ speed ∧ speed ≤ 200)) ∧
    ((∃ m, sweep_speed_set speed = Except.error m) ↔
      ¬(1 / 1000 ≤ speed ∧ speed ≤ 200)) ∧
    (logging_data_point_set n = Except.ok [MpmCmd.logn n] ↔
      (1 ≤ n ∧ n ≤ 1000000)) ∧
    ((∃ m, logging_data_point_set n = Except.error m) ↔
      ¬(1 ≤ n ∧ n ≤ 1000000)) ∧
    (sweep_wavelength_and_step start stop step = Except.ok [MpmCmd.wset start stop step] ↔
      ((1250 ≤ start ∧ start ≤ 1630) ∧ (1250 ≤ stop ∧ stop ≤ 1630) ∧
        (1 / 1000 ≤ step ∧ step ≤ 10) ∧ start < stop)) ∧
    ((∃ m, sweep_wavelength_and_step start stop step = Except.error m) ↔
      ¬((1250 ≤ start ∧ start ≤ 1630) ∧ (1250 ≤ stop ∧ stop ≤ 1630) ∧
        (1 / 1000 ≤ step ∧ step ≤ 10) ∧ start < stop)) := by
  refine ⟨?_, ?_, ?_, ?_, ?_, ?_, ?_, ?_⟩
  · unfold wavelength_set; split_ifs with h <;> simp_all
  · unfold wavelength_set; split_ifs with h <;> simp_all
  · unfold sweep_speed_set; split_ifs with h <;> simp_all
  · unfold sweep_speed_set; split_ifs with h <;> simp_all
  · unfold logging_data_point_set; split_ifs with h <;> simp_all
  · unfold logging_data_point_set; split_ifs with h <;> simp_all
  · unfold sweep_wavelength_and_step
    split_ifs with h1 h2 h3 h4 <;> simp_all
  · unfold sweep_wavelength_and_step
    split_ifs with h1 h2 h3 h4 <;> simp_all

theorem C10_setters_atomic_witness :
    wavelength_set 1300 = Except.ok [MpmCmd.wav 1300] ∧
      sweep_wavelength_and_step 1300 1400 1 = Except.ok [MpmCmd.wset 1300 1400 1] ∧
      (∃ m, wavelength_set 2000 = Except.error m) :=
  ⟨(C10_setters_atomic 1300 1 1300 1400 1 1).1.mpr (by norm_num),
   (C10_setters_atomic 1300 1 1300 1400 1 1).2.2.2.2.2.2.1.mpr (by norm_num),
   (C10_setters_atomic 2000 1 1300 1400 1 1).2.1.mpr (by norm_num)⟩

/-- C6: the claim as stated is false: `fetch_data` of `simple_sme.py`
catches every exception from the binary-values query and returns the empty
list — a transport error during the fetch is swallowed and surfaces to the
caller as the normal-looking value `[]`. -/
theorem C6_fetch_swallows_error :
    fetch_data (Except.error "VisaIOError: timeout expired") = [] := rfl

/-- C6 (amended): not every error propagates: the two data-fetch helpers
swallow exceptions — `fetch_data` returns `[]` on any exception and the
data unchanged otherwise, and `MPM.get_logging_data` falls back to a raw
read on a first exception and returns `None` when both strategies raise;
only the validating setters and the code outside these two `try/except`
blocks let errors propagate. -/
theorem C6_fetch_error_handling (e e1 e2 : String) (data raw : List Nat) :
    fetch_data (Except.error e) = [] ∧
    fetch_data (Except.ok data) = data ∧
    get_logging_data (Except.ok data) (Except.error e2) = some data ∧
    get_logging_data (Except.error e1) (Except.ok raw) = some raw ∧
    get_logging_data (Except.error e1) (Except.error e2) = none :=
  ⟨rfl, rfl, rfl, rfl, rfl⟩

/-- C9: the claim as stated is false: the path that converts the device's
raw integer code into the lookup key — `ErrorCode(int(error_value))` in
`MPM.error` — raises `ValueError` (modelled as `none`) for any integer
that is not a member value, such as `999`, instead of never raising. -/
theorem C9_conversion_raises_on_unknown :
    errorCodeOfInt 999 = none := by decide

/-- C9 (amended): `get_error_description` itself never fails: every
`ErrorCode` member maps to its own specific description (never the generic
one), any key outside the member set maps to "Unknown error", and
`ErrorCode(value)` recovers the member from each member's numeric value —
but that conversion raises `ValueError` for integers, like `999`, that are
no member's value, so the full raw-code-to-description path can raise. -/
theorem C9_error_description_total :
    (∀ e : ErrorCode, get_error_description (some e) ≠ "Unknown error") ∧
    get_error_description none = "Unknown error" ∧
    (∀ e : ErrorCode, errorCodeOfInt (errorCodeValue e) = some e) ∧
    errorCodeOfInt 999 = none := by
  refine ⟨fun e => ?_, rfl, fun e => ?_, by decide⟩
  · cases e <;> decide
  · cases e <;> decide

theorem chunk4_length : ∀ (l : List Nat), (chunk4 l).length = l.length / 4
  | [] => by simp [chunk4]
  | [_] => by simp [chunk4]
  | [_, _] => by simp [chunk4]
  | [_, _, _] => by simp [chunk4]
  | _ :: _ :: _ :: _ :: rest => by
      rw [chunk4]
      simp only [List.length_cons, chunk4_length rest]
      omega

theorem wordsToBytes_length (ws : List Nat) :
    (wordsToBytes ws).length = 4 * ws.length := by
  induction ws with
  | nil => rfl
  | cons w tl ih =>
    rw [wordsToBytes]
    simp only [List.length_cons, ih]
    omega

theorem chunk4_wordsToBytes (ws : List Nat) (h : ∀ w ∈ ws, w < 2 ^ 32) :
    chunk4 (wordsToBytes ws) = ws := by
  induction ws with
  | nil => rfl
  | cons w tl ih =>
    have hw : w < 2 ^ 32 := h w (List.mem_cons_self w tl)
    have hw' : w < 4294967296 := by
      have he : (2 : Nat) ^ 32 = 4294967296 := by norm_num
      omega
    rw [wordsToBytes, chunk4, ih (fun x hx => h x (List.mem_cons_of_mem w hx))]
    congr 1
    omega

theorem digitsToNat_append (l1 l2 : List Nat) :
    digitsToNat (l1 ++ l2) = digitsToNat l1 * 10 ^ l2.length + digitsToNat l2 := by
  induction l1 with
  | nil => simp [digitsToNat]
  | cons d ds ih =>
    show digitsToNat (d :: (ds ++ l2)) = _
    rw [show digitsToNat (d :: (ds ++ l2)) =
        (d - 48) * 10 ^ (ds ++ l2).length + digitsToNat (ds ++ l2) from rfl,
      ih, List.length_append, pow_add, digitsToNat]
    ring

theorem digitsToNat_rev_map (ds : List Nat) :
    digitsToNat (ds.reverse.map (· + 48)) = Nat.ofDigits 10 ds := by
  induction ds with
  | nil => simp [digitsToNat]
  | cons d tl ih =>
    rw [List.reverse_cons, List.map_append, digitsToNat_append, ih, Nat.ofDigits_cons]
    simp [digitsToNat]
    ring

theorem digitsToNat_natDigits (n : Nat) :
    digitsToNat ((natDigits n).reverse.map (· + 48)) = n := by
  rw [natDigits_eq_digits, digitsToNat_rev_map, Nat.ofDigits_digits]

/-- C8: decoding the IEEE-488.2 block produced by encoding a non-empty
sample sequence yields exactly the original sequence. Samples are the
4-byte bit patterns of the floats (values below `2 ^ 32`); the sequence
must fit the single-digit length-of-length field of the block format
(payload below `10 ^ 9` bytes), which every MPM logging buffer does
(`LOGN` caps the count at `10 ^ 6`). -/
theorem C8_round_trip (samples : List Nat) (hne : samples ≠ [])
    (hw : ∀ w ∈ samples, w < 2 ^ 32) (hcap : samples.length * 4 < 10 ^ 9) :
    from_ieee_block (encode_ieee_block samples) = Except.ok samples := by
  have hpos : 0 < samples.length := List.length_pos.mpr hne
  have hplen : (wordsToBytes samples).length = 4 * samples.length :=
    wordsToBytes_length samples
  have hpnz : (wordsToBytes samples).length ≠ 0 := by omega
  have hcap' : (wordsToBytes samples).length < 10 ^ 9 := by
    have h9 : (10 : Nat) ^ 9 = 1000000000 := by norm_num
    omega
  have hdlen : (natDigits (wordsToBytes samples).length).length =
      Nat.log 10 (wordsToBytes samples).length + 1 :=
    natDigits_length _ hpnz
  have hlog : Nat.log 10 (wordsToBytes samples).length < 9 :=
    Nat.log_lt_of_lt_pow hpnz hcap'
  rw [encode_ieee_block, from_ieee_block]
  have hrml : ((natDigits (wordsToBytes samples).length).reverse.map (· + 48)).length =
      (natDigits (wordsToBytes samples).length).length := by
    simp
  rw [if_pos (by omega : 49 ≤ (natDigits (wordsToBytes samples).length).length + 48 ∧
    (natDigits (wordsToBytes samples).length).length + 48 ≤ 57)]
  have hsub : (natDigits (wordsToBytes samples).length).length + 48 - 48 =
      ((natDigits (wordsToBytes samples).length).reverse.map (· + 48)).length := by
    omega
  rw [hsub, List.take_left, List.drop_left]
  have hdig : ((natDigits (wordsToBytes samples).length).reverse.map (· + 48)).all
      is_digit_byte = true := by
    rw [List.all_eq_true]
    intro x hx
    simp only [List.mem_map, List.mem_reverse] at hx
    obtain ⟨d, hd, rfl⟩ := hx
    have hd10 : d < 10 := by
      rw [natDigits_eq_digits] at hd
      exact Nat.digits_lt_base (by norm_num) hd
    simp only [is_digit_byte, decide_eq_true_eq]
    omega
  rw [if_pos ⟨rfl, hdig⟩]
  have hval : digitsToNat ((natDigits (wordsToBytes samples).length).reverse.map (· + 48)) =
      (wordsToBytes samples).length :=
    digitsToNat_natDigits _
  rw [if_pos ⟨hval.symm, by omega⟩]
  rw [chunk4_wordsToBytes samples hw]

/-- C5: the claim as stated is false: `get_data` never compares the decoded
sample count with the count reported by `LOGN?`. For a reported count of
`2` (`expected_size = 11`) a device response whose block carries a
zero-padded length field — `#50004` followed by four payload bytes, eleven
bytes in all, framed consistently — decodes without any error to a single
sample, and `get_data` returns that 1-element sequence even though the
device reported 2 points. -/
theorem C5_count_mismatch_undetected :
    get_data 2 [35, 53, 48, 48, 48, 48, 52, 0, 0, 0, 0] = some (Except.ok [0]) ∧
      ([0] : List Nat).length ≠ 2 := by
  have hlog : Nat.log 10 2 = 0 := Nat.log_eq_zero_iff.mpr (Or.inl (by norm_num))
  have h1 : expected_size_mpm215 2 = some 11 := by
    norm_num [expected_size_mpm215, mathLog10, hlog]
  refine ⟨?_, by decide⟩
  rw [get_data, h1, Option.map_some']
  rfl

/-- C5 (amended): the fetch returns whatever the block's own header
declares, with no check against the reported count: whenever the decode
succeeds, the number of returned samples is the declared payload length
divided by the element width — determined entirely by the `n`-digit length
field embedded in the response — and only a block whose declared length
disagrees with the bytes actually present (for example a truncated
payload) raises `FramingError` instead of returning samples. -/
theorem C5_decoded_count_from_header (block vs : List Nat)
    (h : from_ieee_block block = Except.ok vs) :
    ∃ n L, 1 ≤ n ∧ n ≤ 9 ∧ block.length = 2 + n + L ∧ L % 4 = 0 ∧
      vs.length = L / 4 := by
  unfold from_ieee_block at h
  split at h
  case h_1 d rest =>
    split_ifs at h with h1 h2 h3
    · have hvs : chunk4 (rest.drop (d - 48)) = vs := by
        simpa using h
      have htk : (rest.take (d - 48)).length = d - 48 := h2.1
      have hmin : min (d - 48) rest.length = d - 48 := by
        simpa using htk
      have hle : d - 48 ≤ rest.length := by
        rcases Nat.le_total (d - 48) rest.length with hc | hc
        · exact hc
        · simp [Nat.min_eq_right hc] at hmin
          omega
      refine ⟨d - 48, digitsToNat (rest.take (d - 48)), by omega, by omega, ?_, h3.2, ?_⟩
      · have hdrop : (rest.drop (d - 48)).length = rest.length - (d - 48) :=
          List.length_drop _ _
        have hLval := h3.1
        simp only [List.length_cons]
        omega
      · rw [← hvs, chunk4_length, h3.1]
  case h_2 =>
    exact Except.noConfusion h

theorem C5_decoded_count_from_header_witness :
    ∃ n L, 1 ≤ n ∧ n ≤ 9 ∧ ([35, 49, 52, 9, 9, 9, 9] : List Nat).length = 2 + n + L ∧
      L % 4 = 0 ∧ ([151587081] : List Nat).length = L / 4 :=
  C5_decoded_count_from_header [35, 49, 52, 9, 9, 9, 9] [151587081] rfl

theorem C8_round_trip_witness :
    ([1, 4294967295] : List Nat) ≠ [] ∧
      from_ieee_block (encode_ieee_block [1, 4294967295]) =
        Except.ok [1, 4294967295] :=
  ⟨by decide, C8_round_trip [1, 4294967295] (by decide) (by decide) (by norm_num)⟩

theorem C9_error_description_total_witness :
    get_error_description (some ErrorCode.DATA_OUT_OF_RANGE) ≠ "Unknown error" ∧
      errorCodeOfInt (errorCodeValue ErrorCode.DATA_OUT_OF_RANGE) =
        some ErrorCode.DATA_OUT_OF_RANGE :=
  ⟨C9_error_description_total.1 ErrorCode.DATA_OUT_OF_RANGE,
   C9_error_description_total.2.2.1 ErrorCode.DATA_OUT_OF_RANGE⟩
